import Mathlib

/-!
Verification development for the `hdf` UI component library.

The repository wraps third-party UI primitives (MUI, Formik, a portal-based
modal). We shallowly embed the prop-computation logic of each component:
React components become pure functions from their props (and the ambient
Formik context, modelled as an explicit optional argument) to a "view"
record describing the props actually passed to the underlying primitive;
effects become explicit event traces; DOM event listeners become explicit
listener lists.
-/

/-! ## Handlers

Event handlers are modelled symbolically: `noop` is the inline `() => {}`
no-op, `ctxChange f`/`ctxBlur f` are the handlers returned by the ambient
Formik context's `getFieldProps` for field `f`, and `user i` is an arbitrary
caller-supplied handler. -/

inductive Handler where
  | noop
  | ctxChange (field : String)
  | ctxBlur (field : String)
  | user (id : Nat)
deriving DecidableEq, Repr

/-! ## Formik data model (`FieldInputProps`, `FieldMetaProps`, context) -/

/-- Formik's `FieldInputProps`: what `getFieldProps` returns. `checked` is
only present for checkbox-typed calls, hence `Option Bool`. -/
structure FieldInputProps where
  name : String
  value : String
  onChange : Handler
  onBlur : Handler
  checked : Option Bool
deriving DecidableEq, Repr

/-- Formik's `FieldMetaProps`: what `getFieldMeta` returns. `error` is
`string | undefined`, hence `Option String`. -/
structure FieldMetaProps where
  value : String
  error : Option String
  touched : Bool
  initialError : Option String
  initialTouched : Bool
  initialValue : String
deriving DecidableEq, Repr

/-- The ambient Formik context (`useContext(FormikContext)` when inside a
`<Formik>` provider). `getFieldProps` models the call `getFieldProps(name)`;
`getFieldPropsCheckbox` models `getFieldProps({ name, type: 'checkbox' })`
as used by boolean-valued controls. -/
structure FormikCtx where
  getFieldProps : String → FieldInputProps
  getFieldPropsCheckbox : String → FieldInputProps
  getFieldMeta : String → FieldMetaProps

/-- JavaScript truthiness of a string: falsy iff empty. -/
def strTruthy (s : String) : Bool := s != ""

/-- JavaScript truthiness of a `string | undefined` value. -/
def optStrTruthy : Option String → Bool
  | none => false
  | some s => strTruthy s

/-- Truthiness of the `name` prop (`string | undefined`): the guard used by
every wrapper's `if (formik && name)`. -/
def jsTruthyName : Option String → Bool
  | none => false
  | some s => strTruthy s

/-- `const showError = Boolean(meta.touched && meta.error)` — identical in
all four input wrappers. -/
def showError (meta : FieldMetaProps) : Bool :=
  meta.touched && optStrTruthy meta.error

/-- The synthesized default `meta` object (identical in all wrappers):
`{ value: '', error: undefined, touched: false, initialError: undefined,
initialTouched: false, initialValue: '' }`. -/
def defaultMeta : FieldMetaProps :=
  { value := "", error := none, touched := false, initialError := none,
    initialTouched := false, initialValue := "" }

/-- `FormikTextField`'s synthesized default field:
`{ name: name || '', value: '', onChange: () => {}, onBlur: () => {} }`. -/
def tfDefaultField (name : Option String) : FieldInputProps :=
  { name := (name.getD ""), value := "", onChange := .noop, onBlur := .noop,
    checked := none }

/-- `FormikCheckbox`'s synthesized default field — same as the text field's
but with `checked: false`. -/
def cbDefaultField (name : Option String) : FieldInputProps :=
  { name := (name.getD ""), value := "", onChange := .noop, onBlur := .noop,
    checked := some false }

/-- `FormikCustomTextarea`'s synthesized default field (no `checked` key). -/
def taDefaultField (name : Option String) : FieldInputProps :=
  { name := (name.getD ""), value := "", onChange := .noop, onBlur := .noop,
    checked := none }

/-- The `if (formik && name) { field = formik.getFieldProps(name); meta =
formik.getFieldMeta(name) } else { ...defaults }` branch of
`FormikTextField`. -/
def formikTextFieldBinding (formik : Option FormikCtx) (name : Option String) :
    FieldInputProps × FieldMetaProps :=
  match formik, name with
  | some ctx, some n =>
      if strTruthy n then (ctx.getFieldProps n, ctx.getFieldMeta n)
      else (tfDefaultField name, defaultMeta)
  | _, _ => (tfDefaultField name, defaultMeta)

/-- Same branch for `FormikCheckbox`, which calls
`getFieldProps({ name, type: 'checkbox' })`. -/
def formikCheckboxBinding (formik : Option FormikCtx) (name : Option String) :
    FieldInputProps × FieldMetaProps :=
  match formik, name with
  | some ctx, some n =>
      if strTruthy n then (ctx.getFieldPropsCheckbox n, ctx.getFieldMeta n)
      else (cbDefaultField name, defaultMeta)
  | _, _ => (cbDefaultField name, defaultMeta)

/-- Same branch for `FormikCustomTextarea`. -/
def formikTextareaBinding (formik : Option FormikCtx) (name : Option String) :
    FieldInputProps × FieldMetaProps :=
  match formik, name with
  | some ctx, some n =>
      if strTruthy n then (ctx.getFieldProps n, ctx.getFieldMeta n)
      else (taDefaultField name, defaultMeta)
  | _, _ => (taDefaultField name, defaultMeta)

/-! ## FormikTextField -/

/-- Caller-supplied props that interact with the wrapper's spreads
(`<TextField {...field} {...props} name={name} error={...}
helperText={...}/>`). `none` means the caller did not pass the prop. -/
structure TFUserProps where
  value : Option String
  onChange : Option Handler
  onBlur : Option Handler
  error : Option Bool
  helperText : Option String
deriving DecidableEq, Repr

/-- The caller passing no props at all. -/
def tfNoProps : TFUserProps :=
  { value := none, onChange := none, onBlur := none, error := none,
    helperText := none }

/-- The props finally handed to the underlying MUI `TextField`. A `none`
`value`/`onChange`/`onBlur` means the prop is absent (the input is then
uncontrolled). -/
structure TextFieldView where
  name : Option String
  value : Option String
  onChange : Option Handler
  onBlur : Option Handler
  error : Bool
  helperText : Option String
deriving DecidableEq, Repr

/-- `FormikTextField`: spread order is `{...field} {...props}` followed by
the explicit `name`, `error` (`showError || props.error`) and `helperText`
(`showError ? meta.error : props.helperText`) attributes. -/
def FormikTextField (formik : Option FormikCtx) (name : Option String)
    (props : TFUserProps) : TextFieldView :=
  let fm := formikTextFieldBinding formik name
  let se := showError fm.2
  { name := name,
    value := some (props.value.getD fm.1.value),
    onChange := some (props.onChange.getD fm.1.onChange),
    onBlur := some (props.onBlur.getD fm.1.onBlur),
    error := se || props.error.getD false,
    helperText := if se then fm.2.error else props.helperText }

/-- A bare MUI `TextField` given the same caller props: no field object is
merged in, so absent props stay absent. -/
def bareTextField (props : TFUserProps) : TextFieldView :=
  { name := none, value := props.value, onChange := props.onChange,
    onBlur := props.onBlur, error := props.error.getD false,
    helperText := props.helperText }

/-- React/MUI text-input semantics: an input with a `value` prop is
controlled and always displays that prop; without one it is uncontrolled
and displays what the user typed. -/
def displayedText (valueProp : Option String) (typed : String) : String :=
  valueProp.getD typed

/-! ## FormikCheckbox -/

/-- Caller props of `FormikCheckbox` that interact with the spreads. -/
structure CBUserProps where
  onChange : Option Handler
  onBlur : Option Handler
deriving DecidableEq, Repr

/-- The caller passing no props. -/
def cbNoProps : CBUserProps := { onChange := none, onBlur := none }

/-- The rendered output of `FormikCheckbox`: props of the inner `Checkbox`
(`{...field} {...props} checked={field.checked || false} name={name}`),
the `FormControl`'s `error` flag, and the conditional `FormHelperText`
(`some e` iff `showError` with text `e`). -/
structure CheckboxView where
  name : Option String
  value : Option String
  checked : Bool
  onChange : Option Handler
  onBlur : Option Handler
  formControlError : Bool
  helperTextShown : Option String
deriving DecidableEq, Repr

/-- `FormikCheckbox`. -/
def FormikCheckbox (formik : Option FormikCtx) (name : Option String)
    (props : CBUserProps) : CheckboxView :=
  let fm := formikCheckboxBinding formik name
  let se := showError fm.2
  { name := name,
    value := some fm.1.value,
    checked := fm.1.checked.getD false,
    onChange := some (props.onChange.getD fm.1.onChange),
    onBlur := some (props.onBlur.getD fm.1.onBlur),
    formControlError := se,
    helperTextShown := if se then fm.2.error else none }

/-! ## FormikCustomTextarea -/

/-- Caller props of `FormikCustomTextarea` that interact with the spreads. -/
structure TAUserProps where
  value : Option String
  onChange : Option Handler
  onBlur : Option Handler
deriving DecidableEq, Repr

/-- The caller passing no props. -/
def taNoProps : TAUserProps := { value := none, onChange := none, onBlur := none }

/-- The rendered output of `FormikCustomTextarea`: the textarea's props
(`{...field} {...props} name={name} aria-invalid={showError}`) and the
conditional error `<p>` (`some e` iff `showError` with text `e`). -/
structure TextareaView where
  name : Option String
  value : Option String
  onChange : Option Handler
  onBlur : Option Handler
  ariaInvalid : Bool
  errorTextShown : Option String
deriving DecidableEq, Repr

/-- `FormikCustomTextarea`. -/
def FormikCustomTextarea (formik : Option FormikCtx) (name : Option String)
    (props : TAUserProps) : TextareaView :=
  let fm := formikTextareaBinding formik name
  let se := showError fm.2
  { name := name,
    value := some (props.value.getD fm.1.value),
    onChange := some (props.onChange.getD fm.1.onChange),
    onBlur := some (props.onBlur.getD fm.1.onBlur),
    ariaInvalid := se,
    errorTextShown := if se then fm.2.error else none }

/-! ## FormikSwitch -/

/-- The `if (formik && name)` branch of `FormikSwitch` (the second segment
of src/app/home/page.tsx): `field = formik.getFieldProps({ name, type:
'checkbox' }); meta = formik.getFieldMeta(name)`, else the synthesized
defaults — the source's default field object is identical to
`FormikCheckbox`'s (`checked: false` included), hence `cbDefaultField`. -/
def formikSwitchBinding (formik : Option FormikCtx) (name : Option String) :
    FieldInputProps × FieldMetaProps :=
  match formik, name with
  | some ctx, some n =>
      if strTruthy n then (ctx.getFieldPropsCheckbox n, ctx.getFieldMeta n)
      else (cbDefaultField name, defaultMeta)
  | _, _ => (cbDefaultField name, defaultMeta)

/-- `FormikSwitch` (second segment of src/app/home/page.tsx): renders
`<FormControl error={showError} ...>` around
`<Switch {...field} {...props} checked={field.checked || false}
name={name}/>` with `{showError && <FormHelperText>{meta.error}
</FormHelperText>}` — the same rendered shape as `FormikCheckbox`, so it
shares the `CheckboxView` record. -/
def FormikSwitch (formik : Option FormikCtx) (name : Option String)
    (props : CBUserProps) : CheckboxView :=
  let fm := formikSwitchBinding formik name
  let se := showError fm.2
  { name := name,
    value := some fm.1.value,
    checked := fm.1.checked.getD false,
    onChange := some (props.onChange.getD fm.1.onChange),
    onBlur := some (props.onBlur.getD fm.1.onBlur),
    formControlError := se,
    helperTextShown := if se then fm.2.error else none }

/-! ## Modal lifecycle

`Modal` (src/components/modal): visibility is driven entirely by the
`isOpen` prop. One effect (deps `[isOpen, onOpen, onClose]`) fires the
`onClose`/`onOpen` callbacks; a second effect (deps `[isOpen,
requestCloseOnEscClick, onRequestClose]`) manages a document-level keydown
listener; the render mounts the content into `document.body` via
`createPortal` only while `isOpen` (and `window` is defined). -/

inductive LifecycleEvent where
  | openCall
  | closeCall
deriving DecidableEq, Repr

/-- The body of the `onOpen`/`onClose` effect:
`if (!isOpen && onClose) onClose(); if (isOpen && onOpen) onOpen();`.
The `onOpenPresent`/`onClosePresent` flags say whether the optional
callbacks were supplied. -/
def modalEffectBody (isOpen onOpenPresent onClosePresent : Bool) :
    List LifecycleEvent :=
  (if !isOpen && onClosePresent then [.closeCall] else []) ++
  (if isOpen && onOpenPresent then [.openCall] else [])

/-- Events produced by a re-render with new prop value `cur` after previous
value `prev`: the effect re-runs exactly when its `isOpen` dep changed. -/
def modalUpdateEvents (onOpenPresent onClosePresent prev cur : Bool) :
    List LifecycleEvent :=
  if cur != prev then modalEffectBody cur onOpenPresent onClosePresent else []

/-- Events produced by a sequence of prop updates after a render with
`prev`. -/
def modalTraceEvents (onOpenPresent onClosePresent : Bool) :
    Bool → List Bool → List LifecycleEvent
  | _, [] => []
  | prev, b :: rest =>
      modalUpdateEvents onOpenPresent onClosePresent prev b ++
      modalTraceEvents onOpenPresent onClosePresent b rest

/-- All lifecycle events of a mounted `Modal`: the effect runs once on
mount (initial `isOpen` value `i0`), then on every change of `isOpen`. -/
def modalMountEvents (onOpenPresent onClosePresent i0 : Bool)
    (rest : List Bool) : List LifecycleEvent :=
  modalEffectBody i0 onOpenPresent onClosePresent ++
  modalTraceEvents onOpenPresent onClosePresent i0 rest

/-- Number of `false → true` transitions in a prop trace starting at the
given previous value. -/
def upTransitions : Bool → List Bool → Nat
  | _, [] => 0
  | prev, b :: rest => (if b && !prev then 1 else 0) + upTransitions b rest

/-- Number of `true → false` transitions in a prop trace. -/
def downTransitions : Bool → List Bool → Nat
  | _, [] => 0
  | prev, b :: rest => (if !b && prev then 1 else 0) + downTransitions b rest

/-- The detached render target of `createPortal`. -/
inductive PortalTarget where
  | documentBody
deriving DecidableEq, Repr

/-- The backdrop's click handler:
`onClick={() => requestCloseOnBackdropClick && onRequestClose()}`.
Result: how many times one click invokes `onRequestClose`. -/
def backdropOnClick (requestCloseOnBackdropClick : Bool) : Nat :=
  if requestCloseOnBackdropClick then 1 else 0

/-- What `Modal` mounts into the portal target. -/
structure ModalDom where
  target : PortalTarget
  backdropClickCloseCalls : Nat
deriving DecidableEq, Repr

/-- `Modal`'s render:
`isOpen && typeof window !== 'undefined' && createPortal(..., document.body)`
— `none` when nothing is mounted. -/
def modalRender (isOpen windowDefined requestCloseOnBackdropClick : Bool) :
    Option ModalDom :=
  if isOpen && windowDefined then
    some { target := .documentBody,
           backdropClickCloseCalls := backdropOnClick requestCloseOnBackdropClick }
  else none

/-! ## Modal escape-key listener effect

The listener closure captures `isOpen` and `requestCloseOnEscClick` at the
time the effect ran. The effect body is
`if (typeof window === 'undefined') return;` then
`document.addEventListener('keydown', closeListener)`, and the cleanup
removes exactly the listener that was added. -/

inductive DocListener where
  | escClose (isOpen requestCloseOnEscClick : Bool)
deriving DecidableEq, Repr

/-- One invocation of the `closeListener` closure on a keydown event:
`if (isOpen && e.key === 'Escape' && requestCloseOnEscClick)
onRequestClose();` — result is the number of `onRequestClose` calls. -/
def listenerInvocations (key : String) : DocListener → Nat
  | .escClose isOpen esc =>
      if isOpen && (key == "Escape") && esc then 1 else 0

/-- Dispatching one keydown event to the document invokes every installed
listener once. -/
def dispatchKeydown (doc : List DocListener) (key : String) : Nat :=
  (doc.map (listenerInvocations key)).sum

/-- The esc effect's body: in a browser, add the listener and hand back the
cleanup token; during SSR (`window` undefined) do nothing. -/
def escEffectBody (windowDefined isOpen esc : Bool) (doc : List DocListener) :
    List DocListener × Option DocListener :=
  if windowDefined then
    (doc ++ [.escClose isOpen esc], some (.escClose isOpen esc))
  else (doc, none)

/-- Running the previous effect's cleanup: `removeEventListener` of the
listener it added, if any. -/
def runCleanup (doc : List DocListener) : Option DocListener → List DocListener
  | some l => doc.erase l
  | none => doc

/-- One effect execution (on mount or when a dep changed): React first runs
the previous cleanup, then the new body. The deps pair is
`(isOpen, requestCloseOnEscClick)`. -/
def escLifecycleStep (windowDefined : Bool)
    (st : List DocListener × Option DocListener) (d : Bool × Bool) :
    List DocListener × Option DocListener :=
  escEffectBody windowDefined d.1 d.2 (runCleanup st.1 st.2)

/-- The document's keydown-listener state across a sequence of effect
executions (mount = first element, each later element a dep change). -/
def escLifecycle (windowDefined : Bool)
    (st : List DocListener × Option DocListener) :
    List (Bool × Bool) → List DocListener × Option DocListener
  | [] => st
  | d :: rest => escLifecycle windowDefined (escLifecycleStep windowDefined st d) rest

/-- Unmounting runs the final cleanup. -/
def escUnmount (st : List DocListener × Option DocListener) : List DocListener :=
  runCleanup st.1 st.2

/-! ## CustomBreadcrumb -/

/-- One breadcrumb item. -/
structure BreadcrumbItem where
  label : String
  href : Option String
deriving DecidableEq, Repr

/-- A rendered breadcrumb node: a link when `item.href` is truthy and the
item is not last, else plain text. -/
inductive CrumbNode where
  | link (label href : String)
  | text (label : String)
deriving DecidableEq, Repr

/-- Rendering of one item at index `idx` of `count` items:
`if (item.href && !isLastItem)` render a link, else a typography node. -/
def renderCrumb (count idx : Nat) (it : BreadcrumbItem) : CrumbNode :=
  match it.href with
  | some h => if strTruthy h && (idx + 1 != count) then .link it.label h
              else .text it.label
  | none => .text it.label

/-- The console warning emitted for an empty `items` prop. -/
def breadcrumbWarning : String :=
  "CustomBreadcrumb: \"items\" prop is empty. Breadcrumb will not render."

/-- Result of rendering `CustomBreadcrumb`: the console warnings emitted
and the output (`none` = the component returned `null`). -/
structure BreadcrumbResult where
  warnings : List String
  output : Option (List CrumbNode)
deriving DecidableEq, Repr

/-- `CustomBreadcrumb`: `if (!items || items.length === 0)` warn and
return `null`; `if (!isMounted)` return `null` (SSR guard); else render the
item list. `items` is `Option` because the guard also covers an absent
array at runtime. -/
def CustomBreadcrumb (items : Option (List BreadcrumbItem))
    (isMounted : Bool) : BreadcrumbResult :=
  match items with
  | none => { warnings := [breadcrumbWarning], output := none }
  | some l =>
      if l.length = 0 then { warnings := [breadcrumbWarning], output := none }
      else if !isMounted then { warnings := [], output := none }
      else { warnings := [],
             output := some (l.enum.map fun p => renderCrumb l.length p.1 p.2) }

/-! ## CustomPagination -/

/-- The props of `CustomPagination` that reach the inner MUI `Pagination`.
The parent's `onChange` handler takes the event (modelled as a `Nat` id)
and the new page, and returns what the parent observes. -/
structure CustomPaginationProps where
  count : Nat
  page : Nat
  onChange : Nat → Nat → Nat × Nat

/-- The props handed to the underlying `Pagination` primitive. -/
structure PaginationView where
  count : Nat
  page : Nat
  onChange : Nat → Nat → Nat × Nat

/-- `CustomPagination`: a stateless passthrough —
`<Pagination count={count} page={page} onChange={onChange} .../>`
with no `useState` anywhere in the component. -/
def CustomPagination (p : CustomPaginationProps) : PaginationView :=
  { count := p.count, page := p.page, onChange := p.onChange }

/-! ## CustomTabs -/

/-- A tab value is `string | number`. -/
inductive TabValue where
  | str (s : String)
  | num (n : Int)
deriving DecidableEq, Repr

/-- JavaScript falsiness of a `string | number` tab value. -/
def tabValueFalsy : TabValue → Bool
  | .str s => s == ""
  | .num n => n == 0

/-- One tab item (`content` is an opaque node id). -/
structure TabItem where
  label : String
  value : TabValue
  content : Nat
deriving DecidableEq, Repr

/-- `useState(items[0]?.value || 0)`: the initial active tab. -/
def initialActiveTab (items : List TabItem) : TabValue :=
  match items.head? with
  | some it => if tabValueFalsy it.value then .num 0 else it.value
  | none => .num 0

/-- The rendered output of `CustomTabs` on first render. -/
structure CustomTabsView where
  activeTab : TabValue
  tabs : List (String × TabValue)
  content : List Nat
deriving DecidableEq, Repr

/-- `CustomTabs`: renders one `Tab` per item and, in the content box,
`items.map(item => item.value === activeTab && <div>{item.content}</div>)`
— a `false` entry renders nothing, hence `filterMap`. -/
def CustomTabs (items : List TabItem) : CustomTabsView :=
  { activeTab := initialActiveTab items,
    tabs := items.map fun it => (it.label, it.value),
    content := items.filterMap fun it =>
      if it.value = initialActiveTab items then some it.content else none }

/-! ## Concrete Formik contexts used as witnesses -/

/-- A concrete ambient context whose every field is touched with a
non-empty error message `"required"` and current value `"x"`. -/
def ctxTouched : FormikCtx :=
  { getFieldProps := fun n =>
      { name := n, value := "x", onChange := .ctxChange n, onBlur := .ctxBlur n,
        checked := none },
    getFieldPropsCheckbox := fun n =>
      { name := n, value := "x", onChange := .ctxChange n, onBlur := .ctxBlur n,
        checked := some true },
    getFieldMeta := fun _ =>
      { value := "x", error := some "required", touched := true,
        initialError := none, initialTouched := false, initialValue := "" } }

/-- A concrete ambient context reporting an error message `"required"` on
an untouched field. -/
def ctxUntouched : FormikCtx :=
  { getFieldProps := fun n =>
      { name := n, value := "x", onChange := .ctxChange n, onBlur := .ctxBlur n,
        checked := none },
    getFieldPropsCheckbox := fun n =>
      { name := n, value := "x", onChange := .ctxChange n, onBlur := .ctxBlur n,
        checked := some false },
    getFieldMeta := fun _ =>
      { value := "x", error := some "required", touched := false,
        initialError := none, initialTouched := false, initialValue := "" } }

/-! ## Binding-branch lemmas -/

lemma formikTextFieldBinding_bound (ctx : FormikCtx) (n : String)
    (h : strTruthy n = true) :
    formikTextFieldBinding (some ctx) (some n)
      = (ctx.getFieldProps n, ctx.getFieldMeta n) := by
  simp [formikTextFieldBinding, h]

lemma formikCheckboxBinding_bound (ctx : FormikCtx) (n : String)
    (h : strTruthy n = true) :
    formikCheckboxBinding (some ctx) (some n)
      = (ctx.getFieldPropsCheckbox n, ctx.getFieldMeta n) := by
  simp [formikCheckboxBinding, h]

lemma formikTextareaBinding_bound (ctx : FormikCtx) (n : String)
    (h : strTruthy n = true) :
    formikTextareaBinding (some ctx) (some n)
      = (ctx.getFieldProps n, ctx.getFieldMeta n) := by
  simp [formikTextareaBinding, h]

lemma formikSwitchBinding_bound (ctx : FormikCtx) (n : String)
    (h : strTruthy n = true) :
    formikSwitchBinding (some ctx) (some n)
      = (ctx.getFieldPropsCheckbox n, ctx.getFieldMeta n) := by
  simp [formikSwitchBinding, h]

lemma formikTextFieldBinding_default (formik : Option FormikCtx)
    (name : Option String) (h : jsTruthyName name = false ∨ formik = none) :
    formikTextFieldBinding formik name = (tfDefaultField name, defaultMeta) := by
  cases formik with
  | none => cases name <;> rfl
  | some ctx =>
      cases name with
      | none => rfl
      | some n =>
          rcases h with h | h
          · simp [jsTruthyName] at h
            simp [formikTextFieldBinding, h]
          · exact absurd h (by simp)

lemma formikCheckboxBinding_default (formik : Option FormikCtx)
    (name : Option String) (h : jsTruthyName name = false ∨ formik = none) :
    formikCheckboxBinding formik name = (cbDefaultField name, defaultMeta) := by
  cases formik with
  | none => cases name <;> rfl
  | some ctx =>
      cases name with
      | none => rfl
      | some n =>
          rcases h with h | h
          · simp [jsTruthyName] at h
            simp [formikCheckboxBinding, h]
          · exact absurd h (by simp)

lemma formikTextareaBinding_default (formik : Option FormikCtx)
    (name : Option String) (h : jsTruthyName name = false ∨ formik = none) :
    formikTextareaBinding formik name = (taDefaultField name, defaultMeta) := by
  cases formik with
  | none => cases name <;> rfl
  | some ctx =>
      cases name with
      | none => rfl
      | some n =>
          rcases h with h | h
          · simp [jsTruthyName] at h
            simp [formikTextareaBinding, h]
          · exact absurd h (by simp)

lemma formikSwitchBinding_default (formik : Option FormikCtx)
    (name : Option String) (h : jsTruthyName name = false ∨ formik = none) :
    formikSwitchBinding formik name = (cbDefaultField name, defaultMeta) := by
  cases formik with
  | none => cases name <;> rfl
  | some ctx =>
      cases name with
      | none => rfl
      | some n =>
          rcases h with h | h
          · simp [jsTruthyName] at h
            simp [formikSwitchBinding, h]
          · exact absurd h (by simp)

/-- C1 counterexample: with an ambient Formik context present and the name
prop supplied as the empty string, the guard `if (formik && name)` is false
(empty strings are falsy in JavaScript), so `FormikTextField` renders the
synthesized default value `''` instead of the context's field value
`getFieldProps('').value = 'x'` — refuting the claim as stated. -/
theorem C1_counterexample :
    (FormikTextField (some ctxTouched) (some "") tfNoProps).value = some ""
    ∧ (ctxTouched.getFieldProps "").value = "x"
    ∧ ¬ ((FormikTextField (some ctxTouched) (some "") tfNoProps).value
          = some (ctxTouched.getFieldProps "").value) := by
  decide

/-- C1 (amended): for every Formik input wrapper (`FormikTextField`,
`FormikCheckbox`, `FormikSwitch`, `FormikCustomTextarea`), if an ambient
Formik context is present and a non-empty `name` is supplied, the field
props (`value`, `onChange`, `onBlur`, and `checked` for boolean-valued
controls) and the `touched`/`error` metadata handed to the rendered
control are exactly those of the context's
`getFieldProps`/`getFieldMeta` for that name; otherwise (context absent,
`name` absent, or `name` the empty string) the component uses the
synthesized field object (empty-string value, no-op handlers, `checked`
false) and the synthesized metadata (`touched: false`,
`error: undefined`). -/
theorem C1_optional_form_binding :
    (∀ (ctx : FormikCtx) (n : String), n ≠ "" →
      ((FormikTextField (some ctx) (some n) tfNoProps).value
          = some (ctx.getFieldProps n).value
        ∧ (FormikTextField (some ctx) (some n) tfNoProps).onChange
          = some (ctx.getFieldProps n).onChange
        ∧ (FormikTextField (some ctx) (some n) tfNoProps).onBlur
          = some (ctx.getFieldProps n).onBlur
        ∧ (FormikTextField (some ctx) (some n) tfNoProps).error
          = showError (ctx.getFieldMeta n)
        ∧ (FormikTextField (some ctx) (some n) tfNoProps).helperText
          = (if showError (ctx.getFieldMeta n) then (ctx.getFieldMeta n).error
             else none))
      ∧ ((FormikCheckbox (some ctx) (some n) cbNoProps).value
          = some (ctx.getFieldPropsCheckbox n).value
        ∧ (FormikCheckbox (some ctx) (some n) cbNoProps).onChange
          = some (ctx.getFieldPropsCheckbox n).onChange
        ∧ (FormikCheckbox (some ctx) (some n) cbNoProps).onBlur
          = some (ctx.getFieldPropsCheckbox n).onBlur
        ∧ (∀ b, (ctx.getFieldPropsCheckbox n).checked = some b →
            (FormikCheckbox (some ctx) (some n) cbNoProps).checked = b)
        ∧ (FormikCheckbox (some ctx) (some n) cbNoProps).formControlError
          = showError (ctx.getFieldMeta n))
      ∧ ((FormikCustomTextarea (some ctx) (some n) taNoProps).value
          = some (ctx.getFieldProps n).value
        ∧ (FormikCustomTextarea (some ctx) (some n) taNoProps).onChange
          = some (ctx.getFieldProps n).onChange
        ∧ (FormikCustomTextarea (some ctx) (some n) taNoProps).onBlur
          = some (ctx.getFieldProps n).onBlur
        ∧ (FormikCustomTextarea (some ctx) (some n) taNoProps).ariaInvalid
          = showError (ctx.getFieldMeta n))
      ∧ ((FormikSwitch (some ctx) (some n) cbNoProps).onChange
          = some (ctx.getFieldPropsCheckbox n).onChange
        ∧ (FormikSwitch (some ctx) (some n) cbNoProps).onBlur
          = some (ctx.getFieldPropsCheckbox n).onBlur
        ∧ (∀ b, (ctx.getFieldPropsCheckbox n).checked = some b →
            (FormikSwitch (some ctx) (some n) cbNoProps).checked = b)))
  ∧ (∀ (formik : Option FormikCtx) (name : Option String),
      jsTruthyName name = false ∨ formik = none →
        FormikTextField formik name tfNoProps
          = { name := name, value := some "", onChange := some .noop,
              onBlur := some .noop, error := false, helperText := none }
        ∧ FormikCheckbox formik name cbNoProps
          = { name := name, value := some "", checked := false,
              onChange := some .noop, onBlur := some .noop,
              formControlError := false, helperTextShown := none }
        ∧ FormikCustomTextarea formik name taNoProps
          = { name := name, value := some "", onChange := some .noop,
              onBlur := some .noop, ariaInvalid := false,
              errorTextShown := none }
        ∧ FormikSwitch formik name cbNoProps
          = { name := name, value := some "", checked := false,
              onChange := some .noop, onBlur := some .noop,
              formControlError := false, helperTextShown := none }) := by
  constructor
  · intro ctx n hn
    have ht : strTruthy n = true := by simp [strTruthy, hn]
    refine ⟨⟨?_, ?_, ?_, ?_, ?_⟩, ⟨?_, ?_, ?_, ?_, ?_⟩, ⟨?_, ?_, ?_, ?_⟩,
      ⟨?_, ?_, ?_⟩⟩ <;>
      simp [FormikTextField, FormikCheckbox, FormikCustomTextarea,
        FormikSwitch, formikTextFieldBinding_bound ctx n ht,
        formikCheckboxBinding_bound ctx n ht,
        formikTextareaBinding_bound ctx n ht,
        formikSwitchBinding_bound ctx n ht, tfNoProps, cbNoProps, taNoProps]
    all_goals exact ⟨fun h => by simp [h], fun h => by simp [h]⟩
  · intro formik name h
    refine ⟨?_, ?_, ?_, ?_⟩ <;>
      simp [FormikTextField, FormikCheckbox, FormikCustomTextarea,
        FormikSwitch, formikTextFieldBinding_default formik name h,
        formikCheckboxBinding_default formik name h,
        formikTextareaBinding_default formik name h,
        formikSwitchBinding_default formik name h, tfNoProps, cbNoProps,
        taNoProps, tfDefaultField, cbDefaultField, taDefaultField,
        defaultMeta, showError, optStrTruthy]

/-- C1 witness: the amended theorem applied at the concrete context
`ctxTouched` with name `"email"` (bound case) and at no context / no name
(default case). -/
theorem C1_optional_form_binding_witness :
    (FormikTextField (some ctxTouched) (some "email") tfNoProps).value
      = some "x"
    ∧ FormikCheckbox none none cbNoProps
      = { name := none, value := some "", checked := false,
          onChange := some .noop, onBlur := some .noop,
          formControlError := false, helperTextShown := none } := by
  constructor
  · exact (C1_optional_form_binding.1 ctxTouched "email" (by decide)).1.1
  · exact (C1_optional_form_binding.2 none none (Or.inl (by decide))).2.1

/-- C3: for every Formik input wrapper the error indicator is
`showError = touched AND error non-empty`; when the bound field's metadata
is touched with a non-empty error message, the error text is rendered next
to the control and the control is marked invalid; when untouched, no error
text is shown regardless of the error message's presence. -/
theorem C3_error_visibility :
    (∀ meta : FieldMetaProps,
      showError meta = true
        ↔ meta.touched = true ∧ ∃ e, meta.error = some e ∧ e ≠ "")
  ∧ (∀ (ctx : FormikCtx) (n : String), n ≠ "" →
      ((ctx.getFieldMeta n).touched = true →
        ∀ e : String, (ctx.getFieldMeta n).error = some e → e ≠ "" →
          (FormikTextField (some ctx) (some n) tfNoProps).error = true
          ∧ (FormikTextField (some ctx) (some n) tfNoProps).helperText = some e
          ∧ (FormikCheckbox (some ctx) (some n) cbNoProps).formControlError = true
          ∧ (FormikCheckbox (some ctx) (some n) cbNoProps).helperTextShown = some e
          ∧ (FormikCustomTextarea (some ctx) (some n) taNoProps).ariaInvalid = true
          ∧ (FormikCustomTextarea (some ctx) (some n) taNoProps).errorTextShown = some e
          ∧ (FormikSwitch (some ctx) (some n) cbNoProps).formControlError = true
          ∧ (FormikSwitch (some ctx) (some n) cbNoProps).helperTextShown = some e)
      ∧ ((ctx.getFieldMeta n).touched = false →
          (FormikTextField (some ctx) (some n) tfNoProps).error = false
          ∧ (FormikTextField (some ctx) (some n) tfNoProps).helperText = none
          ∧ (FormikCheckbox (some ctx) (some n) cbNoProps).formControlError = false
          ∧ (FormikCheckbox (some ctx) (some n) cbNoProps).helperTextShown = none
          ∧ (FormikCustomTextarea (some ctx) (some n) taNoProps).ariaInvalid = false
          ∧ (FormikCustomTextarea (some ctx) (some n) taNoProps).errorTextShown = none
          ∧ (FormikSwitch (some ctx) (some n) cbNoProps).formControlError = false
          ∧ (FormikSwitch (some ctx) (some n) cbNoProps).helperTextShown = none)) := by
  constructor
  · intro meta
    cases herr : meta.error with
    | none => simp [showError, optStrTruthy, herr]
    | some e => simp [showError, optStrTruthy, strTruthy, herr]
  · intro ctx n hn
    have ht : strTruthy n = true := by simp [strTruthy, hn]
    constructor
    · intro htouch e herr hne
      have hse : showError (ctx.getFieldMeta n) = true := by
        simp [showError, optStrTruthy, strTruthy, htouch, herr, hne]
      refine ⟨?_, ?_, ?_, ?_, ?_, ?_, ?_, ?_⟩ <;>
        simp [FormikTextField, FormikCheckbox, FormikCustomTextarea,
          FormikSwitch, formikTextFieldBinding_bound ctx n ht,
          formikCheckboxBinding_bound ctx n ht,
          formikTextareaBinding_bound ctx n ht,
          formikSwitchBinding_bound ctx n ht, hse, herr, tfNoProps,
          cbNoProps, taNoProps]
    · intro htouch
      have hse : showError (ctx.getFieldMeta n) = false := by
        simp [showError, htouch]
      refine ⟨?_, ?_, ?_, ?_, ?_, ?_, ?_, ?_⟩ <;>
        simp [FormikTextField, FormikCheckbox, FormikCustomTextarea,
          FormikSwitch, formikTextFieldBinding_bound ctx n ht,
          formikCheckboxBinding_bound ctx n ht,
          formikTextareaBinding_bound ctx n ht,
          formikSwitchBinding_bound ctx n ht, hse, tfNoProps, cbNoProps,
          taNoProps]

/-- C3 witness: the theorem applied at `ctxTouched` (touched, error
`"required"` → error shown) and at `ctxUntouched` (untouched, error
message present → nothing shown). -/
theorem C3_error_visibility_witness :
    (FormikTextField (some ctxTouched) (some "email") tfNoProps).helperText
      = some "required"
    ∧ (FormikTextField (some ctxTouched) (some "email") tfNoProps).error = true
    ∧ (FormikCustomTextarea (some ctxUntouched) (some "email") taNoProps).errorTextShown
      = none
    ∧ (FormikCustomTextarea (some ctxUntouched) (some "email") taNoProps).ariaInvalid
      = false := by
  have h1 := (C3_error_visibility.2 ctxTouched "email" (by decide)).1
    (by decide) "required" (by decide) (by decide)
  have h2 := (C3_error_visibility.2 ctxUntouched "email" (by decide)).2 (by decide)
  exact ⟨h1.2.1, h1.1, h2.2.2.2.2.2.1, h2.2.2.2.2.1⟩

/-- C4: evaluation of `FormikTextField` outside any Formik context with no
name and no caller props. The safe parts of the claim hold — rendering is
total (never throws), the value is empty and no error is visible — but the
control is NOT the uncontrolled bare primitive: the wrapper passes
`value: ''` with a no-op `onChange`, so the input is controlled and keeps
displaying `''` when the user types, while the bare MUI `TextField` (which
the component's own docs promise to match) is uncontrolled and displays
the typed text. -/
theorem C4_no_context_divergence :
    (FormikTextField none none tfNoProps).error = false
    ∧ (FormikTextField none none tfNoProps).helperText = none
    ∧ (FormikTextField none none tfNoProps).value = some ""
    ∧ (bareTextField tfNoProps).value = none
    ∧ displayedText (FormikTextField none none tfNoProps).value "a" = ""
    ∧ displayedText (bareTextField tfNoProps).value "a" = "a"
    ∧ FormikTextField none none tfNoProps ≠ bareTextField tfNoProps := by
  decide

/-! ## Modal lifecycle lemmas -/

lemma count_open_trace (rest : List Bool) :
    ∀ prev, (modalTraceEvents true true prev rest).count .openCall
      = upTransitions prev rest := by
  induction rest with
  | nil => intro prev; rfl
  | cons b rest ih =>
      intro prev
      simp only [modalTraceEvents, upTransitions, List.count_append, ih]
      cases prev <;> cases b <;>
        simp [modalUpdateEvents, modalEffectBody, List.count_cons]

lemma count_close_trace (rest : List Bool) :
    ∀ prev, (modalTraceEvents true true prev rest).count .closeCall
      = downTransitions prev rest := by
  induction rest with
  | nil => intro prev; rfl
  | cons b rest ih =>
      intro prev
      simp only [modalTraceEvents, downTransitions, List.count_append, ih]
      cases prev <;> cases b <;>
        simp [modalUpdateEvents, modalEffectBody, List.count_cons]

/-- C2: with both lifecycle callbacks supplied, a mounted `Modal` fires
`onOpen` exactly once per `false → true` transition of `isOpen` (plus once
if initially open) and `onClose` exactly once per `true → false` transition
(plus once on initial render while closed); while open (in a browser) the
content is mounted into `document.body`, and while `isOpen` is false
nothing is mounted into the portal target. -/
theorem C2_modal_lifecycle :
    (∀ (i0 : Bool) (rest : List Bool),
        (modalMountEvents true true i0 rest).count .openCall
          = (if i0 then 1 else 0) + upTransitions i0 rest
      ∧ (modalMountEvents true true i0 rest).count .closeCall
          = (if i0 then 0 else 1) + downTransitions i0 rest)
  ∧ (∀ b, (modalRender true true b).map ModalDom.target
        = some PortalTarget.documentBody)
  ∧ (∀ w b, modalRender false w b = none) := by
  refine ⟨?_, ?_, ?_⟩
  · intro i0 rest
    constructor
    · simp only [modalMountEvents, List.count_append, count_open_trace]
      cases i0 <;> simp [modalEffectBody]
    · simp only [modalMountEvents, List.count_append, count_close_trace]
      cases i0 <;> simp [modalEffectBody]
  · intro b; rfl
  · intro w b; rfl

/-- C5: with the modal open and mounted in a browser, one dispatched
escape-key keydown event invokes `onRequestClose` exactly once when
`requestCloseOnEscClick` is true and zero times when it is false. -/
theorem C5_escape_key_close :
    dispatchKeydown (escLifecycle true ([], none) [(true, true)]).1 "Escape" = 1
    ∧ dispatchKeydown (escLifecycle true ([], none) [(true, false)]).1 "Escape" = 0
    ∧ dispatchKeydown (escLifecycle true ([], none) [(true, true)]).1 "Enter" = 0 := by
  decide

/-- C6: a click on the backdrop of an open modal invokes `onRequestClose`
exactly once if and only if `requestCloseOnBackdropClick` is true; with the
flag false it invokes nothing. -/
theorem C6_backdrop_click :
    ∀ b : Bool,
      (modalRender true true b).map ModalDom.backdropClickCloseCalls
        = some (backdropOnClick b)
      ∧ (backdropOnClick b = 1 ↔ b = true)
      ∧ backdropOnClick false = 0 := by
  intro b
  refine ⟨rfl, ?_, rfl⟩
  cases b <;> simp [backdropOnClick]

/-! ## Escape-listener lifecycle lemmas -/

/-- The listeners a cleanup token accounts for: the singleton it added, or
nothing. -/
def tokListeners : Option DocListener → List DocListener
  | some l => [l]
  | none => []

lemma escStep_inv (st : List DocListener × Option DocListener) (d : Bool × Bool)
    (h : st.1 = tokListeners st.2) :
    escLifecycleStep true st d
      = ([.escClose d.1 d.2], some (.escClose d.1 d.2)) := by
  obtain ⟨doc, tok⟩ := st
  cases tok with
  | none =>
      simp only [tokListeners] at h
      subst h
      simp [escLifecycleStep, runCleanup, escEffectBody]
  | some l =>
      simp only [tokListeners] at h
      subst h
      simp [escLifecycleStep, runCleanup, escEffectBody]

lemma escLifecycle_inv (deps : List (Bool × Bool)) :
    ∀ (st : List DocListener × Option DocListener), st.1 = tokListeners st.2 →
      (escLifecycle true st deps).1 = tokListeners (escLifecycle true st deps).2 := by
  induction deps with
  | nil => intro st h; exact h
  | cons d rest ih =>
      intro st h
      simp only [escLifecycle]
      exact ih _ (by rw [escStep_inv st d h]; rfl)

lemma escLifecycle_snoc (deps : List (Bool × Bool)) :
    ∀ (st : List DocListener × Option DocListener) (d : Bool × Bool),
      st.1 = tokListeners st.2 →
      escLifecycle true st (deps ++ [d])
        = ([.escClose d.1 d.2], some (.escClose d.1 d.2)) := by
  induction deps with
  | nil =>
      intro st d h
      simp only [List.nil_append, escLifecycle]
      exact escStep_inv st d h
  | cons d0 rest ih =>
      intro st d h
      simp only [List.cons_append, escLifecycle]
      exact ih _ d (by rw [escStep_inv st d0 h]; rfl)

lemma tokListeners_length (tok : Option DocListener) :
    (tokListeners tok).length ≤ 1 := by
  cases tok <;> simp [tokListeners]

/-- C7 counterexample: mount the modal in a browser with `isOpen = false`
(and `requestCloseOnEscClick` at its default `true`): the document-level
keydown listener IS installed even though the open flag is false, because
the effect adds it unconditionally (the open check lives inside the
handler). This refutes "the listener is present only while the open flag
is true". -/
theorem C7_counterexample :
    (escLifecycle true ([], none) [(false, true)]).1
      = [DocListener.escClose false true]
    ∧ (escLifecycle true ([], none) [(false, true)]).1 ≠ [] := by
  decide

/-- C7 (amended): in a browser the modal's escape-key effect installs the
document-level keydown listener on mount and on every change of its deps
(`isOpen`, `requestCloseOnEscClick`, `onRequestClose`) regardless of the
open flag — the open check happens inside the handler, so the listener is
merely inert while closed; the previous listener is unconditionally removed
before each reinstall and on unmount, so at most one listener is installed
at any time and none outlives the component's mounted lifetime. -/
theorem C7_escape_listener_lifecycle :
    (∀ deps : List (Bool × Bool),
        (escLifecycle true ([], none) deps).1.length ≤ 1
      ∧ escUnmount (escLifecycle true ([], none) deps) = [])
  ∧ (∀ (deps : List (Bool × Bool)) (d : Bool × Bool),
      (escLifecycle true ([], none) (deps ++ [d])).1
        = [DocListener.escClose d.1 d.2]) := by
  constructor
  · intro deps
    have hinv := escLifecycle_inv deps ([], none) rfl
    constructor
    · rw [hinv]; exact tokListeners_length _
    · cases hfin : (escLifecycle true ([], none) deps).2 with
      | none =>
          simp only [escUnmount, hinv, hfin, tokListeners, runCleanup]
      | some l =>
          simp only [escUnmount, hinv, hfin, tokListeners, runCleanup]
          simp
  · intro deps d
    rw [escLifecycle_snoc deps ([], none) d rfl]

/-- C8: `CustomBreadcrumb` given an absent or empty `items` array logs the
console-level warning and renders nothing (`null`); rendering is a total
function, so no error is thrown. -/
theorem C8_empty_items_warning :
    ∀ isMounted : Bool,
      CustomBreadcrumb none isMounted
        = { warnings := [breadcrumbWarning], output := none }
      ∧ CustomBreadcrumb (some []) isMounted
        = { warnings := [breadcrumbWarning], output := none } := by
  intro m
  exact ⟨rfl, rfl⟩

/-- C9: `CustomPagination` is stateless: with `count = 10`, `page = 3`, the
rendered page is exactly the `page` prop, and invoking the rendered change
handler with page value `4` is exactly a call of the parent's `onChange`
with `(event, 4)`; in general every rendered prop is the parent-supplied
prop, unchanged. -/
theorem C9_pagination_stateless :
    ∀ (f : Nat → Nat → Nat × Nat) (ev : Nat),
      (CustomPagination { count := 10, page := 3, onChange := f }).onChange ev 4
        = f ev 4
      ∧ (CustomPagination { count := 10, page := 3, onChange := f }).page = 3
      ∧ (∀ p : CustomPaginationProps,
          (CustomPagination p).page = p.page
          ∧ (CustomPagination p).count = p.count
          ∧ (CustomPagination p).onChange = p.onChange) := by
  intro f ev
  exact ⟨rfl, rfl, fun p => ⟨rfl, rfl, rfl⟩⟩

lemma tabs_filterMap_eq (a : TabValue) (items : List TabItem) :
    (items.filterMap fun it => if it.value = a then some it.content else none)
      = ((items.filter fun it => it.value == a).map fun it => it.content) := by
  induction items with
  | nil => rfl
  | cons it rest ih =>
      by_cases h : it.value = a
      · simp [List.filterMap_cons, List.filter_cons, h, ih]
      · simp [List.filterMap_cons, List.filter_cons, h, ih]

/-- C10: `CustomTabs` with an empty `items` array does not throw (the
render is total): the initial active tab defaults to `0`, no `Tab` is
rendered and the content box is empty; for a non-empty array the initial
active tab is the first item's value with fallback `0` when that value is
falsy, one `Tab` is rendered per item, and exactly the items whose value
equals the active tab have their content rendered. -/
theorem C10_custom_tabs :
    (CustomTabs [] = { activeTab := .num 0, tabs := [], content := [] })
  ∧ (∀ (it : TabItem) (rest : List TabItem),
      (CustomTabs (it :: rest)).activeTab
        = (if tabValueFalsy it.value then .num 0 else it.value))
  ∧ (∀ items : List TabItem,
      (CustomTabs items).content
        = ((items.filter fun i => i.value == initialActiveTab items).map
            fun i => i.content)
      ∧ (CustomTabs items).tabs = (items.map fun i => (i.label, i.value))) := by
  refine ⟨rfl, fun it rest => rfl, fun items => ⟨?_, rfl⟩⟩
  exact tabs_filterMap_eq (initialActiveTab items) items
